import Mathlib

/-!
Verification development for the OrcaSlicer Moonraker proxy component
(`src/orcaslicer.py`).  The Python source is shallowly embedded: bytes are
`List Nat` (each element < 256), strings are Lean `String`/`List Char`,
stateful interactions (the outbound HTTP calls, the file writes) are made
explicit as returned traces, and the behaviour of the external HTTP
transport is a parameter (`Except String resp`: `error reason` models a
raised transport exception, `ok r` a delivered response).
-/

namespace OrcaSlicer

/-! ## Bytes and UTF-8 -/

/-- UTF-8 encoding of a single scalar value (as Python `str.encode`). -/
def utf8Char (c : Char) : List Nat :=
  let n := c.toNat
  if n < 0x80 then [n]
  else if n < 0x800 then [0xC0 + n / 64, 0x80 + n % 64]
  else if n < 0x10000 then
    [0xE0 + n / 4096, 0x80 + (n / 64) % 64, 0x80 + n % 64]
  else
    [0xF0 + n / 262144, 0x80 + (n / 4096) % 64, 0x80 + (n / 64) % 64,
     0x80 + n % 64]

/-- Model of Python `s.encode('utf-8')`. -/
def utf8 (s : String) : List Nat := (s.data.map utf8Char).flatten

/-- Continuation byte test for UTF-8 decoding. -/
def contByte (b : Nat) : Bool := 0x80 ≤ b && b ≤ 0xBF

/-- Valid second byte for a three-byte UTF-8 lead (excludes overlong
    encodings and surrogates, as CPython's decoder does). -/
def cont2ok (b1 b2 : Nat) : Bool :=
  if b1 = 0xE0 then 0xA0 ≤ b2 && b2 ≤ 0xBF
  else if b1 = 0xED then 0x80 ≤ b2 && b2 ≤ 0x9F
  else contByte b2

/-- Valid second byte for a four-byte UTF-8 lead. -/
def cont4ok (b1 b2 : Nat) : Bool :=
  if b1 = 0xF0 then 0x90 ≤ b2 && b2 ≤ 0xBF
  else if b1 = 0xF4 then 0x80 ≤ b2 && b2 ≤ 0x8F
  else contByte b2

/-- The replacement character U+FFFD. -/
def repl : Char := Char.ofNat 0xFFFD

/-- Model of Python `bytes.decode('utf-8', errors='replace')`: each maximal
    invalid subsequence becomes one U+FFFD (CPython's substitution policy).
    The `fuel` argument only drives the recursion; every step consumes at
    least one input byte, so `fuel = length` never runs out. -/
def decodeReplaceAux : Nat → List Nat → List Char
  | 0, _ => []
  | _, [] => []
  | fuel + 1, b1 :: rest =>
    if b1 < 0x80 then Char.ofNat b1 :: decodeReplaceAux fuel rest
    else if b1 < 0xC2 then repl :: decodeReplaceAux fuel rest
    else if b1 ≤ 0xDF then
      match rest with
      | b2 :: r2 =>
        if contByte b2 then
          Char.ofNat ((b1 - 0xC0) * 64 + (b2 - 0x80)) :: decodeReplaceAux fuel r2
        else repl :: decodeReplaceAux fuel (b2 :: r2)
      | [] => [repl]
    else if b1 ≤ 0xEF then
      match rest with
      | b2 :: r2 =>
        if cont2ok b1 b2 then
          match r2 with
          | b3 :: r3 =>
            if contByte b3 then
              Char.ofNat ((b1 - 0xE0) * 4096 + (b2 - 0x80) * 64 + (b3 - 0x80))
                :: decodeReplaceAux fuel r3
            else repl :: decodeReplaceAux fuel r2
          | [] => [repl]
        else repl :: decodeReplaceAux fuel (b2 :: r2)
      | [] => [repl]
    else if b1 ≤ 0xF4 then
      match rest with
      | b2 :: r2 =>
        if cont4ok b1 b2 then
          match r2 with
          | b3 :: r3 =>
            if contByte b3 then
              match r3 with
              | b4 :: r4 =>
                if contByte b4 then
                  Char.ofNat ((b1 - 0xF0) * 262144 + (b2 - 0x80) * 4096 +
                    (b3 - 0x80) * 64 + (b4 - 0x80)) :: decodeReplaceAux fuel r4
                else repl :: decodeReplaceAux fuel r3
              | [] => [repl]
            else repl :: decodeReplaceAux fuel r2
          | [] => [repl]
        else repl :: decodeReplaceAux fuel (b2 :: r2)
      | [] => [repl]
    else repl :: decodeReplaceAux fuel rest

/-- Model of Python `bytes.decode('utf-8', errors='replace')` as a `String`. -/
def decodeReplace (bs : List Nat) : String := ⟨decodeReplaceAux bs.length bs⟩

/-! ## Base64 (Python `base64.b64decode` on a `str`, non-strict mode) -/

/-- The standard base64 alphabet value of a character, if any. -/
def b64Val (c : Char) : Option Nat :=
  if 'A' ≤ c && c ≤ 'Z' then some (c.toNat - 65)
  else if 'a' ≤ c && c ≤ 'z' then some (c.toNat - 97 + 26)
  else if '0' ≤ c && c ≤ '9' then some (c.toNat - 48 + 52)
  else if c = '+' then some 62
  else if c = '/' then some 63
  else none

/-- The quad decoding loop of CPython's `binascii.a2b_base64` in non-strict
    mode: invalid characters are skipped; a pad that completes a quad ends
    the decode; a trailing partial quad is an error (`none`). -/
def b64Loop : List Char → Nat → Nat → Nat → List Nat → Option (List Nat)
  | [], quadPos, _, _, acc => if quadPos = 0 then some acc.reverse else none
  | c :: rest, quadPos, leftchar, pads, acc =>
    if c = '=' then
      if 2 ≤ quadPos && 4 ≤ quadPos + (pads + 1) then some acc.reverse
      else b64Loop rest quadPos leftchar (pads + 1) acc
    else
      match b64Val c with
      | none => b64Loop rest quadPos leftchar pads acc
      | some v =>
        match quadPos with
        | 0 => b64Loop rest 1 v 0 acc
        | 1 => b64Loop rest 2 (v % 16) 0 ((leftchar * 4 + v / 16) :: acc)
        | 2 => b64Loop rest 3 (v % 4) 0 ((leftchar * 16 + v / 4) :: acc)
        | _ => b64Loop rest 0 0 0 ((leftchar * 64 + v) :: acc)

/-- Model of Python `base64.b64decode(s)` for a `str` argument: the string is
    first ASCII-encoded (failing on non-ASCII), then decoded non-strictly.
    `none` models the raised exception. -/
def b64decode (s : String) : Option (List Nat) :=
  if s.data.all (fun c => c.toNat < 128) then b64Loop s.data 0 0 0 []
  else none

/-! ## Multipart builder (`OrcaSlicer._build_multipart`) -/

/-- Python truthiness of an optional string argument. -/
def strTruthy : Option String → Bool
  | some s => !s.isEmpty
  | none => false

/-- One form field part of the multipart body. -/
def fieldPart (boundary name value : String) : String :=
  "--" ++ boundary ++ "\r\nContent-Disposition: form-data; name=\"" ++ name ++
  "\"\r\n\r\n" ++ value ++ "\r\n"

/-- The header part introducing the file field of the multipart body. -/
def filePartHeader (boundary fileField fileName : String) : String :=
  "--" ++ boundary ++ "\r\nContent-Disposition: form-data; name=\"" ++
  fileField ++ "\"; filename=\"" ++ fileName ++
  "\"\r\nContent-Type: application/octet-stream\r\n\r\n"

/-- Model of `OrcaSlicer._build_multipart`.  `boundary` stands for the
    generated `uuid.uuid4().hex`.  Returns `(body, content_type)`. -/
def build_multipart (boundary : String) (fields : List (String × String))
    (fileField fileName : Option String) (fileBytes : Option (List Nat)) :
    List Nat × String :=
  let parts := fields.map (fun p => fieldPart boundary p.1 p.2)
  let parts :=
    if strTruthy fileField && strTruthy fileName && fileBytes.isSome then
      parts ++ [filePartHeader boundary (fileField.getD ("")) (fileName.getD (""))]
    else parts
  let body := utf8 (String.join parts)
  let body :=
    if strTruthy fileField && fileBytes.isSome then
      body ++ fileBytes.getD [] ++ utf8 ("\r\n--" ++ boundary ++ "--\r\n")
    else body ++ utf8 ("--" ++ boundary ++ "--\r\n")
  (body, "multipart/form-data; boundary=" ++ boundary)

/-! ## Filename extraction and sanitisation (`_handle_slice` lines 362-372)

The regex `filename="?([^";\s]+)"?` is modelled directly: `re.search` tries
successive start positions left to right; at a position the literal
`filename=` must match, an optional quote is consumed (greedily), and the
group is the maximal nonempty run of characters outside `"`, `;` and
whitespace. -/

/-- Python's `\s` class (ASCII part, which is all that occurs in headers). -/
def isPySpace (c : Char) : Bool :=
  c = ' ' || c = '\t' || c = '\n' || c = '\r' ||
  c = Char.ofNat 0x0B || c = Char.ofNat 0x0C

/-- Characters allowed in the regex group `[^";\s]`. -/
def isFnameChar (c : Char) : Bool := !(c = '"' || c = ';' || isPySpace c)

/-- Boolean list-prefix test (used to match the literal `filename=`). -/
def isPrefixB : List Char → List Char → Bool
  | [], _ => true
  | _ :: _, [] => false
  | a :: as, b :: bs => a = b && isPrefixB as bs

/-- Longest run of group characters at the front of the input. -/
def takeFname : List Char → List Char
  | [] => []
  | c :: rest => if isFnameChar c then c :: takeFname rest else []

/-- Attempt to match `filename="?([^";\s]+)"?` at the current position,
    returning the captured group. -/
def matchCDAt (s : List Char) : Option (List Char) :=
  if isPrefixB ("filename=").data s then
    let t := s.drop 9
    let u := match t with
      | '"' :: u2 => u2
      | _ => t
    let g := takeFname u
    if g = [] then none else some g
  else none

/-- Model of `re.search(r'filename="?([^";\s]+)"?', cd)`: leftmost match. -/
def searchCD : List Char → Option (List Char)
  | [] => none
  | c :: rest =>
    match matchCDAt (c :: rest) with
    | some g => some g
    | none => searchCD rest

/-- Split on `/` (every occurrence, keeping empty components). -/
def splitSlash : List Char → List (List Char)
  | [] => [[]]
  | c :: rest =>
    let r := splitSlash rest
    if c = '/' then [] :: r
    else
      match r with
      | [] => [[c]]
      | h :: t => (c :: h) :: t

/-- Model of `pathlib.Path(s).name` on POSIX: the last path component after
    dropping empty and `.` components (`..` is kept, as pathlib does). -/
def posixName (s : List Char) : List Char :=
  match ((splitSlash s).filter
      (fun comp => !(comp == []) && !(comp == ['.']))).getLast? with
  | some l => l
  | none => []

/-- Boolean suffix test, modelling Python `str.endswith`. -/
def endsWithB (s suffix : List Char) : Bool :=
  isPrefixB suffix.reverse s.reverse

/-- Append `.gcode` when the name does not already end with it
    (lines 371-372 of the source). -/
def forceGcode (n : List Char) : List Char :=
  if endsWithB n (".gcode").data then n else n ++ (".gcode").data

/-- The output filename chosen by `_handle_slice` for a successful backend
    response: extract via the regex from the `Content-Disposition` value
    `cd`, fall back to `slice_{uuidHex8}.gcode`, strip directory components,
    force the `.gcode` extension.  `uuidHex8` stands for
    `uuid.uuid4().hex[:8]`. -/
def sliceOutputFilename (cd uuidHex8 : List Char) : List Char :=
  forceGcode (posixName
    (match searchCD cd with
     | some g => g
     | none => ("slice_").data ++ uuidHex8 ++ (".gcode").data))

/-- Lowercase hexadecimal digit test (the alphabet of `uuid4().hex`). -/
def isLowerHex (c : Char) : Bool := c.isDigit || ('a' ≤ c && c ≤ 'f')

/-! ## Header lookup (tornado `HTTPHeaders.get`, case-insensitive) -/

/-- ASCII lowercasing of a string (header names are ASCII). -/
def lowerStr (s : String) : String := ⟨s.data.map Char.toLower⟩

/-- Case-insensitive header lookup, as tornado's `HTTPHeaders` provides. -/
def lookupHeader (hs : List (String × String)) (k : String) : Option String :=
  (hs.find? (fun p => lowerStr p.1 == lowerStr k)).map (fun p => p.2)

/-- Model of `response.headers.get(k, dflt)`. -/
def headerGet (hs : List (String × String)) (k dflt : String) : String :=
  (lookupHeader hs k).getD dflt

/-! ## `sorted` on strings (Python code-point lexicographic order) -/

/-- Lexicographic comparison of character lists by code point. -/
def lexLe : List Char → List Char → Bool
  | [], _ => true
  | _ :: _, [] => false
  | a :: as, b :: bs =>
    if a.toNat < b.toNat then true
    else if b.toNat < a.toNat then false
    else lexLe as bs

/-- `s ≤ t` in Python's default string order. -/
def strLe (s t : String) : Bool := lexLe s.data t.data

/-- Stable insertion into a sorted list. -/
def insertSorted (s : String) : List String → List String
  | [] => [s]
  | t :: ts => if strLe s t then s :: t :: ts else t :: insertSorted s ts

/-- Model of Python `sorted` on a list of strings. -/
def sortStrings : List String → List String
  | [] => []
  | s :: ss => insertSorted s (sortStrings ss)

/-! ## `json.dumps({"new_name": x})` (CPython defaults, `ensure_ascii`) -/

/-- Lowercase hex digit of a value below 16. -/
def hexDigit (n : Nat) : Char :=
  if n < 10 then Char.ofNat (48 + n) else Char.ofNat (87 + n)

/-- A `\uXXXX` escape. -/
def uEscape (n : Nat) : List Char :=
  ['\\', 'u', hexDigit (n / 4096 % 16), hexDigit (n / 256 % 16),
   hexDigit (n / 16 % 16), hexDigit (n % 16)]

/-- JSON escaping of one character, as CPython's `json.dumps` with
    `ensure_ascii=True`: everything outside `0x20..0x7e` is escaped. -/
def jsonEscapeChar (c : Char) : List Char :=
  if c = '"' then ['\\', '"']
  else if c = '\\' then ['\\', '\\']
  else if c = '\n' then ['\\', 'n']
  else if c = '\r' then ['\\', 'r']
  else if c = '\t' then ['\\', 't']
  else if c.toNat = 8 then ['\\', 'b']
  else if c.toNat = 12 then ['\\', 'f']
  else if c.toNat < 0x20 || 0x7F ≤ c.toNat then
    if c.toNat < 0x10000 then uEscape c.toNat
    else uEscape (0xD800 + (c.toNat - 0x10000) / 1024) ++
         uEscape (0xDC00 + (c.toNat - 0x10000) % 1024)
  else [c]

/-- Model of `json.dumps({"new_name": new_name})` (source line 313). -/
def jsonDumpsNewName (newName : String) : String :=
  "\x7b\"new_name\": \"" ++
    (⟨(newName.data.map jsonEscapeChar).flatten⟩ : String) ++ "\"\x7d"

/-! ## Data model -/

/-- A raised `self.server.error(message, status)`. -/
structure SrvError where
  message : String
  status : Nat
deriving DecidableEq, Repr

/-- One outbound backend request, as recorded for a handler run.  `body` and
    `contentType` are `none` for the no-body client; `timeout` is in
    seconds. -/
structure BackendCall where
  method : String
  path : String
  body : Option (List Nat)
  contentType : Option String
  timeout : Nat
deriving DecidableEq, Repr

/-- A JSON value (the shape of what `resp.json()` yields). -/
inductive Json where
  | null
  | bool (b : Bool)
  | num (n : Int)
  | str (s : String)
  | arr (xs : List Json)
  | obj (kvs : List (String × Json))

/-- A response from Moonraker's built-in `HttpClient` (an external
    collaborator, modelled at its interface): status code, decoded text, and
    the result of `resp.json()` (`none` models a raised parse error). -/
structure HttpClientResponse where
  status_code : Nat
  text : String
  jsonResult : Option Json

/-- Moonraker's `HttpResponse.has_error()`: true when the backend answered
    with an HTTP error status. -/
def HttpClientResponse.has_error (r : HttpClientResponse) : Bool :=
  400 ≤ r.status_code

/-- A tornado `HTTPResponse` as the source consumes it: `.code`, `.body`
    (bytes) and `.headers`. -/
structure RawResponse where
  code : Nat
  body : List Nat
  headers : List (String × String)

/-- The success dictionary returned by `_handle_slice`
    (`{filename, size, slice_time}` and nothing else). -/
structure SliceOk where
  filename : String
  size : Nat
  slice_time : String

/-- What a handler run produces for the caller. -/
inductive HandlerOutcome where
  /-- The simple proxy returned `resp.json()`. -/
  | okJson (j : Json)
  /-- The handler returns `json.loads(body)` for these raw body bytes. -/
  | okLoads (body : List Nat)
  /-- The slice handler's success dictionary. -/
  | okSlice (r : SliceOk)
  /-- A raised `self.server.error`. -/
  | err (e : SrvError)
  /-- An uncaught non-`server.error` exception (e.g. `resp.json()` parse
      failure propagating out of `_proxy_simple`). -/
  | exnParse

/-! ## Validation (`_validate_profile_type`, lines 219-225) -/

/-- `VALID_PROFILE_TYPES = {"printer", "process", "filament"}`. -/
def VALID_PROFILE_TYPES : List String := ["printer", "process", "filament"]

/-- Model of `_validate_profile_type`: `none` when valid, otherwise the
    raised 400 error. -/
def validate_profile_type (profile_type : String) : Option SrvError :=
  if profile_type ∈ VALID_PROFILE_TYPES then none
  else some
    ⟨"Invalid profile type '" ++ profile_type ++ "'. Must be one of: " ++
       String.intercalate (", ") (sortStrings VALID_PROFILE_TYPES), 400⟩

/-! ## Backend clients -/

/-- Model of `_proxy_simple` (lines 161-185).  `backend` is the behaviour of
    the external HTTP client for this call: `error reason` models a raised
    transport exception (connection refused, DNS failure, timeout), `ok r` a
    delivered response.  Returns the request descriptor issued and the
    outcome.  `timeout` is the optional Python argument (`t = timeout or
    10.0`). -/
def proxy_simple (method path : String) (timeout : Option Nat)
    (backend : Except String HttpClientResponse) :
    BackendCall × HandlerOutcome :=
  let t := match timeout with
    | some v => if v = 0 then 10 else v
    | none => 10
  (⟨method, path, none, none, t⟩,
    match backend with
    | .error e => .err ⟨"orcaslicer-web unreachable: " ++ e, 503⟩
    | .ok resp =>
      if resp.has_error then
        .err ⟨"orcaslicer-web error: " ++ resp.text, resp.status_code⟩
      else
        match resp.jsonResult with
        | some j => .okJson j
        | none => .exnParse)

/-- Model of `_send_multipart` (lines 187-213).  The tornado fetch uses
    `raise_error=False`, so a delivered response is returned whatever its
    status; only a raised transport exception maps to an error
    (`t = timeout or float(self.request_timeout)`). -/
def send_multipart (method path : String) (body : List Nat)
    (content_type : String) (timeout : Option Nat) (request_timeout : Nat)
    (backend : Except String RawResponse) :
    BackendCall × Except SrvError RawResponse :=
  let t := match timeout with
    | some v => if v = 0 then request_timeout else v
    | none => request_timeout
  (⟨method, path, some body, some content_type, t⟩,
    match backend with
    | .error e => .error ⟨"orcaslicer-web unreachable: " ++ e, 503⟩
    | .ok r => .ok r)

/-! ## Route handlers

Each handler is a function of the request data it reads, the freshly
generated identifiers (`boundary` stands for `uuid.uuid4().hex`), and the
backend behaviour for the call it may issue.  It returns the list of
backend requests actually issued together with the outcome.  The
`inbound_body` / `inbound_content_type` (resp. `content_type`) parameters
carry the raw inbound payload attributes of the `WebRequest`; the source
never reads them, which the definitions reflect. -/

/-- Model of `_handle_profiles_collection` (lines 260-293). -/
def handle_profiles_collection (profile_type action filename content : String)
    (boundary : String) (inbound_body : List Nat)
    (inbound_content_type : String) (request_timeout : Nat)
    (backendSimple : Except String HttpClientResponse)
    (backendRaw : Except String RawResponse) :
    List BackendCall × HandlerOutcome :=
  match validate_profile_type profile_type with
  | some e => ([], .err e)
  | none =>
    if action = "GET" then
      let pr := proxy_simple ("GET") ("/api/profiles/" ++ profile_type) none
        backendSimple
      ([pr.1], pr.2)
    else
      let bm := build_multipart boundary [] (some ("file")) (some filename)
        (some (utf8 content))
      let sent := send_multipart ("POST") ("/api/profiles/" ++ profile_type)
        bm.1 bm.2 (some 30) request_timeout backendRaw
      match sent.2 with
      | .error e => ([sent.1], .err e)
      | .ok resp =>
        if 400 ≤ resp.code then
          ([sent.1],
           .err ⟨"Profile upload failed: " ++ decodeReplace resp.body,
                 resp.code⟩)
        else ([sent.1], .okLoads resp.body)

/-- Model of `_handle_profile_item` (lines 295-323).  `new_name = none`
    models the `new_name` argument being absent from the parsed body, in
    which case Moonraker's `WebRequest.get_str` (external collaborator)
    raises a 400 server error before any backend call. -/
def handle_profile_item (profile_type profile_name action content_type : String)
    (new_name : Option String) (request_timeout : Nat)
    (backendSimple : Except String HttpClientResponse)
    (backendRaw : Except String RawResponse) :
    List BackendCall × HandlerOutcome :=
  match validate_profile_type profile_type with
  | some e => ([], .err e)
  | none =>
    let api_path := "/api/profiles/" ++ profile_type ++ "/" ++ profile_name
    if action = "GET" then
      let pr := proxy_simple ("GET") api_path none backendSimple
      ([pr.1], pr.2)
    else if action = "DELETE" then
      let pr := proxy_simple ("DELETE") api_path none backendSimple
      ([pr.1], pr.2)
    else
      match new_name with
      | none => ([], .err ⟨"No data for argument: new_name", 400⟩)
      | some nn =>
        let sent := send_multipart ("PATCH") api_path
          (utf8 (jsonDumpsNewName nn)) ("application/json") (some 10)
          request_timeout backendRaw
        match sent.2 with
        | .error e => ([sent.1], .err e)
        | .ok resp =>
          if 400 ≤ resp.code then
            ([sent.1],
             .err ⟨"Profile operation failed: " ++ decodeReplace resp.body,
                   resp.code⟩)
          else ([sent.1], .okLoads resp.body)

/-- Model of `_handle_slice` (lines 325-394).  `boundary` stands for the
    multipart `uuid.uuid4().hex`, `uuidHex8` for the fallback filename's
    `uuid.uuid4().hex[:8]`.  The second component of the result lists the
    file writes attempted under the gcodes directory as
    `(filename, bytes)`; `write_error` carries the `OSError` message when
    `write_bytes` fails. -/
def handle_slice (model_filename model_data printer process filament : String)
    (boundary uuidHex8 : String) (request_timeout : Nat)
    (backend : Except String RawResponse) (write_error : Option String) :
    List BackendCall × List (String × List Nat) × HandlerOutcome :=
  match b64decode model_data with
  | none => ([], [], .err ⟨"Invalid base64 model data", 400⟩)
  | some model_bytes =>
    let bm := build_multipart boundary
      [("printer", printer), ("process", process), ("filament", filament)]
      (some ("model")) (some model_filename) (some model_bytes)
    let sent := send_multipart ("POST") ("/api/slice") bm.1 bm.2
      (some request_timeout) request_timeout backend
    match sent.2 with
    | .error e => ([sent.1], [], .err e)
    | .ok resp =>
      if resp.code = 409 then ([sent.1], [], .err ⟨"Slicer is busy", 409⟩)
      else if 400 ≤ resp.code then
        ([sent.1], [],
         .err ⟨"Slice failed: " ++ decodeReplace resp.body, resp.code⟩)
      else
        let cd := headerGet resp.headers ("Content-Disposition") ("")
        let filename : String := ⟨sliceOutputFilename cd.data uuidHex8.data⟩
        match write_error with
        | some e =>
          ([sent.1], [(filename, resp.body)],
           .err ⟨"Failed to write GCODE file: " ++ e, 500⟩)
        | none =>
          ([sent.1], [(filename, resp.body)],
           .okSlice ⟨filename, resp.body.length,
                     headerGet resp.headers ("X-Slice-Time-Seconds")
                       ("unknown")⟩)

end OrcaSlicer

namespace OrcaSlicer

/-! ## Helper lemmas -/

/-- `splitSlash` never returns the empty list of components. -/
theorem splitSlash_ne_nil (l : List Char) : splitSlash l ≠ [] := by
  induction l with
  | nil => simp [splitSlash]
  | cons c rest ih =>
    simp only [splitSlash]
    split
    · simp
    · cases h : splitSlash rest with
      | nil => simp
      | cons hd tl => simp

/-- No component produced by `splitSlash` contains a slash. -/
theorem mem_splitSlash_no_slash {l p : List Char}
    (hp : p ∈ splitSlash l) : '/' ∉ p := by
  induction l generalizing p with
  | nil =>
    simp only [splitSlash, List.mem_singleton] at hp
    subst hp; simp
  | cons c rest ih =>
    simp only [splitSlash] at hp
    by_cases hc : c = '/'
    · rw [if_pos hc] at hp
      rcases List.mem_cons.mp hp with h | h
      · subst h; simp
      · exact ih h
    · rw [if_neg hc] at hp
      cases hsp : splitSlash rest with
      | nil => exact absurd hsp (splitSlash_ne_nil rest)
      | cons hd tl =>
        rw [hsp] at hp
        rcases List.mem_cons.mp hp with h | h
        · subst h
          intro hmem
          rcases List.mem_cons.mp hmem with h2 | h2
          · exact hc h2.symm
          · exact ih (by rw [hsp]; exact List.mem_cons_self hd tl) h2
        · exact ih (by rw [hsp]; exact List.mem_cons_of_mem hd h)

/-- An element selected by `getLast?` is a member of the list. -/
theorem mem_of_getLast?_eq {α : Type} {l : List α} {a : α}
    (h : l.getLast? = some a) : a ∈ l := by
  induction l with
  | nil => simp [List.getLast?] at h
  | cons x xs ih =>
    cases xs with
    | nil =>
      simp [List.getLast?] at h
      simp [h]
    | cons y ys =>
      rw [List.getLast?_cons_cons] at h
      exact List.mem_cons_of_mem _ (ih h)

/-- The sanitised path component contains no slash. -/
theorem posixName_no_slash (s : List Char) : '/' ∉ posixName s := by
  unfold posixName
  cases hl : ((splitSlash s).filter
      (fun comp => !(comp == []) && !(comp == ['.']))).getLast? with
  | none => simp
  | some l =>
    simp only []
    have hmem := mem_of_getLast?_eq hl
    exact mem_splitSlash_no_slash (List.mem_filter.mp hmem).1

/-- On a slash-free input, `splitSlash` yields the single component. -/
theorem splitSlash_eq_single {l : List Char} (h : '/' ∉ l) :
    splitSlash l = [l] := by
  induction l with
  | nil => rfl
  | cons c rest ih =>
    have hc : ¬ c = '/' := fun hcc => h (by rw [hcc]; exact List.mem_cons_self _ _)
    have hr : '/' ∉ rest := fun hm => h (List.mem_cons_of_mem _ hm)
    simp only [splitSlash, if_neg hc, ih hr]

/-- `posixName` is the identity on a slash-free, nonempty name other than
    `.` — the basename of such a name is itself. -/
theorem posixName_no_slash_id {s : List Char} (h : '/' ∉ s) (hne : s ≠ [])
    (hdot : s ≠ ['.']) : posixName s = s := by
  unfold posixName
  rw [splitSlash_eq_single h]
  simp [List.filter_cons, hne, hdot]

/-- A list is a Boolean prefix of itself followed by anything. -/
theorem isPrefixB_append (p t : List Char) : isPrefixB p (p ++ t) = true := by
  induction p with
  | nil => rfl
  | cons a as ih => simp [isPrefixB, ih]

/-- Appending a suffix makes `endsWithB` true. -/
theorem endsWithB_append (n suf : List Char) :
    endsWithB (n ++ suf) suf = true := by
  unfold endsWithB
  rw [List.reverse_append]
  exact isPrefixB_append suf.reverse n.reverse

/-- The forced name always ends with `.gcode`. -/
theorem forceGcode_endsWith (n : List Char) :
    endsWithB (forceGcode n) (".gcode").data = true := by
  unfold forceGcode
  split
  · assumption
  · exact endsWithB_append n _

/-- Forcing the extension introduces no slash. -/
theorem forceGcode_no_slash {n : List Char} (h : '/' ∉ n) :
    '/' ∉ forceGcode n := by
  have hg : '/' ∉ (".gcode").data := by decide
  unfold forceGcode
  split
  · exact h
  · intro hm
    rcases List.mem_append.mp hm with h1 | h1
    · exact h h1
    · exact hg h1

/-- A Boolean prefix is no longer than the whole. -/
theorem isPrefixB_length {p q : List Char} (h : isPrefixB p q = true) :
    p.length ≤ q.length := by
  induction p generalizing q with
  | nil => simp
  | cons a as ih =>
    cases q with
    | nil => simp [isPrefixB] at h
    | cons b bs =>
      simp only [isPrefixB, Bool.and_eq_true] at h
      have := ih h.2
      simp only [List.length_cons]
      omega

/-- A Boolean suffix is no longer than the whole. -/
theorem endsWithB_length {s suf : List Char} (h : endsWithB s suf = true) :
    suf.length ≤ s.length := by
  unfold endsWithB at h
  have := isPrefixB_length h
  simpa using this

/-- A name ending in `.gcode` is nonempty and is not `.`. -/
theorem gcode_suffix_facts {r : List Char}
    (h : endsWithB r (".gcode").data = true) : r ≠ [] ∧ r ≠ ['.'] := by
  have hlen := endsWithB_length h
  have h6 : (".gcode").data.length = 6 := by decide
  rw [h6] at hlen
  constructor
  · intro he; subst he; simp at hlen
  · intro he; subst he; simp at hlen

/-- The sanitisation pipeline of `_handle_slice`: whatever name comes out of
    extraction, the final name ends in `.gcode`, holds no slash, and equals
    its own basename. -/
theorem sanitized_facts (fname : List Char) :
    endsWithB (forceGcode (posixName fname)) (".gcode").data = true
    ∧ '/' ∉ forceGcode (posixName fname)
    ∧ posixName (forceGcode (posixName fname)) = forceGcode (posixName fname) := by
  have hns : '/' ∉ posixName fname := posixName_no_slash fname
  have hend := forceGcode_endsWith (posixName fname)
  have hslash := forceGcode_no_slash hns
  have hf := gcode_suffix_facts hend
  exact ⟨hend, hslash, posixName_no_slash_id hslash hf.1 hf.2⟩

/-- The sorted, comma-joined listing of the valid profile categories. -/
theorem sorted_types_eq :
    String.intercalate (", ") (sortStrings VALID_PROFILE_TYPES) =
      "filament, printer, process" := by decide

/-- On an invalid profile type, `_validate_profile_type` raises exactly this
    400 error, its message listing the valid categories alphabetically. -/
theorem validate_invalid {pt : String} (h : pt ∉ VALID_PROFILE_TYPES) :
    validate_profile_type pt = some
      ⟨"Invalid profile type '" ++ pt ++
         "'. Must be one of: filament, printer, process", 400⟩ := by
  unfold validate_profile_type
  rw [if_neg h, sorted_types_eq, String.append_assoc, String.append_assoc]
  rfl

/-- On a valid profile type, validation passes. -/
theorem validate_valid {pt : String} (h : pt ∈ VALID_PROFILE_TYPES) :
    validate_profile_type pt = none := by
  unfold validate_profile_type
  rw [if_pos h]

/-! ## Claims -/

/-- C10: for every backend slice response, the filename ultimately used for
    the output file — extracted from `Content-Disposition` or generated as
    fallback — ends in `.gcode`, contains no path separator, and equals its
    own basename, so the written path stays directly inside the configured
    output directory. -/
theorem claim10_filename_invariant : ∀ (cd uuidHex8 : List Char),
    endsWithB (sliceOutputFilename cd uuidHex8) (".gcode").data = true
    ∧ '/' ∉ sliceOutputFilename cd uuidHex8
    ∧ posixName (sliceOutputFilename cd uuidHex8) =
        sliceOutputFilename cd uuidHex8 := by
  intro cd u
  unfold sliceOutputFilename
  exact sanitized_facts _

/-- C1: the output filename is extracted from the `Content-Disposition`
    header via the pattern `filename="?([^";\s]+)"?`; if the pattern does
    not match, the generated `slice_{hex}.gcode` name is used unchanged;
    the chosen name has directory components stripped and `.gcode` appended
    when missing; the result never contains a path separator, and the
    traversal attempt `filename="../../etc/passwd"` yields `passwd.gcode`. -/
theorem claim1_slice_filename :
    (∀ cd u : List Char, '/' ∉ sliceOutputFilename cd u)
    ∧ (∀ cd u g : List Char, searchCD cd = some g →
        sliceOutputFilename cd u = forceGcode (posixName g))
    ∧ (∀ cd u : List Char, searchCD cd = none →
        (∀ c ∈ u, isLowerHex c = true) → u ≠ [] →
        sliceOutputFilename cd u = ("slice_").data ++ u ++ (".gcode").data)
    ∧ sliceOutputFilename (("attachment; filename=\"part.gcode\"").data) [] =
        ("part.gcode").data
    ∧ sliceOutputFilename
        (("attachment; filename=\"../../etc/passwd\"").data) [] =
        ("passwd.gcode").data := by
  refine ⟨?_, ?_, ?_, by decide, by decide⟩
  · intro cd u
    unfold sliceOutputFilename
    exact (sanitized_facts _).2.1
  · intro cd u g hs
    unfold sliceOutputFilename
    rw [hs]
  · intro cd u hs hhex hne
    unfold sliceOutputFilename
    rw [hs]
    have hslash : '/' ∉ ("slice_").data ++ u ++ (".gcode").data := by
      intro hm
      rcases List.mem_append.mp hm with hm1 | hm1
      · rcases List.mem_append.mp hm1 with hm2 | hm2
        · exact absurd hm2 (by decide)
        · have := hhex _ hm2
          simp [isLowerHex] at this
      · exact absurd hm1 (by decide)
    have hlen : (("slice_").data ++ u ++ (".gcode").data).length =
        12 + u.length := by
      simp [List.length_append]
      omega
    have hne2 : ("slice_").data ++ u ++ (".gcode").data ≠ [] := by
      intro he
      have := congrArg List.length he
      rw [hlen] at this
      simp at this
    have hdot : ("slice_").data ++ u ++ (".gcode").data ≠ ['.'] := by
      intro he
      have := congrArg List.length he
      rw [hlen] at this
      simp at this
      omega
    rw [posixName_no_slash_id hslash hne2 hdot]
    unfold forceGcode
    rw [if_pos (endsWithB_append (("slice_").data ++ u) ((".gcode").data))]

/-- Witness for C1: a concrete no-match header falls back to the generated
    name. -/
theorem claim1_witness :
    sliceOutputFilename [] (("ab12cd34").data) =
      ("slice_").data ++ ("ab12cd34").data ++ (".gcode").data :=
  claim1_slice_filename.2.2.1 [] (("ab12cd34").data) rfl (by decide)
    (by decide)

/-- C2: for every profile-related endpoint (the collection handler and the
    single-item handler) and every category outside
    `{printer, process, filament}`, the handler fails with a 400 Bad
    Request whose message lists the three valid values alphabetically, and
    no backend call is issued. -/
theorem claim2_invalid_category : ∀ pt : String, pt ∉ VALID_PROFILE_TYPES →
    (∀ action fn content bnd ib ict rt bs br,
      handle_profiles_collection pt action fn content bnd ib ict rt bs br =
        ([], .err ⟨"Invalid profile type '" ++ pt ++
          "'. Must be one of: filament, printer, process", 400⟩))
    ∧ (∀ pname action ct nn rt bs br,
      handle_profile_item pt pname action ct nn rt bs br =
        ([], .err ⟨"Invalid profile type '" ++ pt ++
          "'. Must be one of: filament, printer, process", 400⟩)) := by
  intro pt hpt
  have hv := validate_invalid hpt
  constructor
  · intro action fn content bnd ib ict rt bs br
    unfold handle_profiles_collection
    rw [hv]
  · intro pname action ct nn rt bs br
    unfold handle_profile_item
    rw [hv]

/-- Witness for C2: the category `material` is rejected by both handlers
    with the alphabetical 400 message and an empty backend-call trace. -/
theorem claim2_witness :
    handle_profiles_collection ("material") ("GET") ("") ("") ("") [] ("") 300
        (.error ("nc")) (.error ("nc")) =
      ([], .err ⟨"Invalid profile type 'material'. " ++
        "Must be one of: filament, printer, process", 400⟩)
    ∧ handle_profile_item ("material") ("p") ("GET") ("") none 300
        (.error ("nc")) (.error ("nc")) =
      ([], .err ⟨"Invalid profile type 'material'. " ++
        "Must be one of: filament, printer, process", 400⟩) := by
  have h := claim2_invalid_category ("material") (by decide)
  exact ⟨h.1 ("GET") ("") ("") ("") [] ("") 300 (.error ("nc")) (.error ("nc")),
         h.2 ("p") ("GET") ("") none 300 (.error ("nc")) (.error ("nc"))⟩

/-- C4: for a no-body backend call, a transport-level failure raises a 503
    whose message contains the original failure reason; a backend response
    with an HTTP error status raises an error with the backend's status
    forwarded verbatim; otherwise `resp.json()` is returned as-is. -/
theorem claim4_proxy_simple : ∀ (method path : String) (timeout : Option Nat),
    (∀ reason : String,
      (proxy_simple method path timeout (.error reason)).2 =
        .err ⟨"orcaslicer-web unreachable: " ++ reason, 503⟩)
    ∧ (∀ resp : HttpClientResponse, 400 ≤ resp.status_code →
      (proxy_simple method path timeout (.ok resp)).2 =
        .err ⟨"orcaslicer-web error: " ++ resp.text, resp.status_code⟩)
    ∧ (∀ (resp : HttpClientResponse) (j : Json), resp.status_code < 400 →
      resp.jsonResult = some j →
      (proxy_simple method path timeout (.ok resp)).2 = .okJson j) := by
  intro m p t
  refine ⟨fun r => rfl, ?_, ?_⟩
  · intro resp h
    have hb : resp.has_error = true := decide_eq_true h
    simp [proxy_simple, hb]
  · intro resp j h hj
    have hb : resp.has_error = false := by
      simp only [HttpClientResponse.has_error, decide_eq_false_iff_not]
      omega
    simp [proxy_simple, hb, hj]

/-- Witness for C4: an unreachable backend yields the 503 with the reason in
    the message, and a 500 backend answer is forwarded verbatim. -/
theorem claim4_witness :
    ((proxy_simple ("GET") ("/api/health") none
        (.error ("connection refused"))).2 =
      .err ⟨"orcaslicer-web unreachable: connection refused", 503⟩)
    ∧ ((proxy_simple ("GET") ("/api/health") none
        (.ok ⟨500, "boom", none⟩)).2 =
      .err ⟨"orcaslicer-web error: boom", 500⟩) :=
  ⟨(claim4_proxy_simple ("GET") ("/api/health") none).1 ("connection refused"),
   (claim4_proxy_simple ("GET") ("/api/health") none).2.1 ⟨500, "boom", none⟩
     (by decide)⟩

/-- C5: the with-body backend client never raises on a non-2xx status — the
    raw response is returned for the caller to inspect — and raises only on
    transport failure, reported as a 503 Backend Unreachable. -/
theorem claim5_send_multipart_no_raise :
    ∀ (method path : String) (body : List Nat) (ct : String)
      (timeout : Option Nat) (rt : Nat),
    (∀ r : RawResponse,
      (send_multipart method path body ct timeout rt (.ok r)).2 = .ok r)
    ∧ (∀ e : String,
      (send_multipart method path body ct timeout rt (.error e)).2 =
        .error ⟨"orcaslicer-web unreachable: " ++ e, 503⟩) := by
  intro m p b c t rt
  exact ⟨fun r => rfl, fun e => rfl⟩

/-- C3: a 409 backend status on `/slice` raises the dedicated Slicer Busy
    error with status 409, on a path distinct from the generic mapping,
    whose message includes the backend response body text. -/
theorem claim3_slicer_busy : ∀ (mf md pr pc fl bnd ux : String) (rt : Nat)
    (we : Option String) (bytes : List Nat) (resp : RawResponse),
    b64decode md = some bytes →
    ((resp.code = 409 →
      (handle_slice mf md pr pc fl bnd ux rt (.ok resp) we).2.2 =
        .err ⟨"Slicer is busy", 409⟩)
    ∧ (400 ≤ resp.code → resp.code ≠ 409 →
      (handle_slice mf md pr pc fl bnd ux rt (.ok resp) we).2.2 =
        .err ⟨"Slice failed: " ++ decodeReplace resp.body, resp.code⟩)) := by
  intro mf md pr pc fl bnd ux rt we bytes resp hdec
  constructor
  · intro h409
    simp [handle_slice, hdec, send_multipart, h409]
  · intro h400 hne
    simp [handle_slice, hdec, send_multipart, hne, h400]

/-- Witness for C3: a concrete busy backend answer and a concrete generic
    failure. -/
theorem claim3_witness :
    ((handle_slice ("m.stl") ("") ("P") ("Q") ("R") ("b") ("u") 300
        (.ok ⟨409, utf8 ("busy"), []⟩) none).2.2 =
      .err ⟨"Slicer is busy", 409⟩)
    ∧ ((handle_slice ("m.stl") ("") ("P") ("Q") ("R") ("b") ("u") 300
        (.ok ⟨500, utf8 ("oom"), []⟩) none).2.2 =
      .err ⟨"Slice failed: " ++ decodeReplace (utf8 ("oom")), 500⟩) :=
  ⟨(claim3_slicer_busy ("m.stl") ("") ("P") ("Q") ("R") ("b") ("u") 300 none []
      ⟨409, utf8 ("busy"), []⟩ rfl).1 rfl,
   (claim3_slicer_busy ("m.stl") ("") ("P") ("Q") ("R") ("b") ("u") 300 none []
      ⟨500, utf8 ("oom"), []⟩ rfl).2 (by decide) (by decide)⟩

/-- C8: a successful `/slice` call returns exactly the written filename, the
    byte-length of the backend body as size, and the
    `X-Slice-Time-Seconds` header value — or `"unknown"` when absent. -/
theorem claim8_slice_success : ∀ (mf md pr pc fl bnd ux : String) (rt : Nat)
    (bytes : List Nat) (resp : RawResponse),
    b64decode md = some bytes → resp.code < 400 →
    ((handle_slice mf md pr pc fl bnd ux rt (.ok resp) none).2.2 =
      .okSlice ⟨⟨sliceOutputFilename
          (headerGet resp.headers ("Content-Disposition") ("")).data ux.data⟩,
        resp.body.length,
        headerGet resp.headers ("X-Slice-Time-Seconds") ("unknown")⟩)
    ∧ ((handle_slice mf md pr pc fl bnd ux rt (.ok resp) none).2.1 =
      [(⟨sliceOutputFilename
          (headerGet resp.headers ("Content-Disposition") ("")).data ux.data⟩,
        resp.body)])
    ∧ (lookupHeader resp.headers ("X-Slice-Time-Seconds") = none →
      headerGet resp.headers ("X-Slice-Time-Seconds") ("unknown") =
        "unknown") := by
  intro mf md pr pc fl bnd ux rt bytes resp hdec hlt
  have h409 : ¬ resp.code = 409 := by omega
  have h400 : ¬ 400 ≤ resp.code := by omega
  refine ⟨?_, ?_, ?_⟩
  · simp [handle_slice, hdec, send_multipart, h409, h400]
  · simp [handle_slice, hdec, send_multipart, h409, h400]
  · intro habs
    unfold headerGet
    rw [habs]
    rfl

/-- Witness for C8: concrete successful slice with a filename header and a
    slice-time header. -/
theorem claim8_witness :
    (handle_slice ("m.stl") ("") ("P") ("Q") ("R") ("b") ("u") 300
        (.ok ⟨200, utf8 ("gcodebytes"),
          [("Content-Disposition", "attachment; filename=\"part.gcode\""),
           ("X-Slice-Time-Seconds", "12.5")]⟩) none).2.2 =
      .okSlice ⟨⟨sliceOutputFilename
          (headerGet [("Content-Disposition",
              "attachment; filename=\"part.gcode\""),
            ("X-Slice-Time-Seconds", "12.5")]
            ("Content-Disposition") ("")).data ("u").data⟩,
        (utf8 ("gcodebytes")).length,
        headerGet [("Content-Disposition",
            "attachment; filename=\"part.gcode\""),
          ("X-Slice-Time-Seconds", "12.5")]
          ("X-Slice-Time-Seconds") ("unknown")⟩ :=
  (claim8_slice_success ("m.stl") ("") ("P") ("Q") ("R") ("b") ("u") 300 []
    ⟨200, utf8 ("gcodebytes"),
      [("Content-Disposition", "attachment; filename=\"part.gcode\""),
       ("X-Slice-Time-Seconds", "12.5")]⟩ rfl (by decide)).1

/-- C9: when the `model_data` field fails base64 decoding, `/slice` raises
    the 400 `Invalid base64 model data` error before any backend call is
    issued and before any file write is attempted. -/
theorem claim9_invalid_base64 : ∀ (mf md pr pc fl bnd ux : String) (rt : Nat)
    (backend : Except String RawResponse) (we : Option String),
    b64decode md = none →
    handle_slice mf md pr pc fl bnd ux rt backend we =
      ([], [], .err ⟨"Invalid base64 model data", 400⟩) := by
  intro mf md pr pc fl bnd ux rt backend we hdec
  simp [handle_slice, hdec]

/-- Witness for C9: the string `a` is rejected by the decoder (one data
    character beyond a multiple of four), so the handler fails closed. -/
theorem claim9_witness :
    handle_slice ("m.stl") ("a") ("P") ("Q") ("R") ("b") ("u") 300
        (.ok ⟨200, [], []⟩) none =
      ([], [], .err ⟨"Invalid base64 model data", 400⟩) :=
  claim9_invalid_base64 ("m.stl") ("a") ("P") ("Q") ("R") ("b") ("u") 300
    (.ok ⟨200, [], []⟩) none (by decide)

/-- Counterexample to C6 as stated: at a POST with a non-JSON inbound
    content type — where the claim requires a PUT with timeout 30 — the
    handler still issues exactly one PATCH with timeout 10. -/
theorem claim6_counterexample :
    ((handle_profile_item ("printer") ("p1") ("POST")
        ("application/octet-stream") (some ("x")) 300 (.error ("nc"))
        (.ok ⟨200, utf8 ("{}"), []⟩)).1.map (fun c => c.method) = ["PATCH"])
    ∧ ("PUT" ∉ (handle_profile_item ("printer") ("p1") ("POST")
        ("application/octet-stream") (some ("x")) 300 (.error ("nc"))
        (.ok ⟨200, utf8 ("{}"), []⟩)).1.map (fun c => c.method))
    ∧ ((handle_profile_item ("printer") ("p1") ("POST")
        ("application/octet-stream") (some ("x")) 300 (.error ("nc"))
        (.ok ⟨200, utf8 ("{}"), []⟩)).1.map (fun c => c.timeout) = [10]) := by
  decide

/-- C6 (amended): every POST to `/profiles/{category}/{name}` — whatever
    the inbound content type — forwards a single PATCH carrying
    `json.dumps({"new_name": ...})` with content type `application/json`
    and timeout 10s; a backend status ≥ 400 raises Profile Operation
    Failed with the backend's status and body text. -/
theorem claim6_rename_always_patch :
    ∀ (pt pname ct nn : String) (rt : Nat)
      (bs : Except String HttpClientResponse)
      (braw : Except String RawResponse),
    pt ∈ VALID_PROFILE_TYPES →
    ((handle_profile_item pt pname ("POST") ct (some nn) rt bs braw).1 =
      [⟨"PATCH", "/api/profiles/" ++ pt ++ "/" ++ pname,
        some (utf8 (jsonDumpsNewName nn)), some ("application/json"), 10⟩])
    ∧ (∀ resp : RawResponse, braw = .ok resp → 400 ≤ resp.code →
      (handle_profile_item pt pname ("POST") ct (some nn) rt bs braw).2 =
        .err ⟨"Profile operation failed: " ++ decodeReplace resp.body,
              resp.code⟩)
    ∧ (∀ resp : RawResponse, braw = .ok resp → resp.code < 400 →
      (handle_profile_item pt pname ("POST") ct (some nn) rt bs braw).2 =
        .okLoads resp.body) := by
  intro pt pname ct nn rt bs braw hmem
  have hv := validate_valid hmem
  have hg : ("POST" : String) ≠ "GET" := by decide
  have hd : ("POST" : String) ≠ "DELETE" := by decide
  refine ⟨?_, ?_, ?_⟩
  · cases braw with
    | error e => simp [handle_profile_item, hv, hg, hd, send_multipart]
    | ok resp =>
      by_cases hc : 400 ≤ resp.code
      · simp [handle_profile_item, hv, hg, hd, send_multipart, hc]
      · simp [handle_profile_item, hv, hg, hd, send_multipart, hc]
  · intro resp heq hc
    subst heq
    simp [handle_profile_item, hv, hg, hd, send_multipart, hc]
  · intro resp heq hc
    have hc2 : ¬ 400 ≤ resp.code := by omega
    subst heq
    simp [handle_profile_item, hv, hg, hd, send_multipart, hc2]

/-- Witness for C6 (amended): a concrete rename forwarded as PATCH, and a
    422 backend answer mapped to Profile Operation Failed. -/
theorem claim6_witness :
    ((handle_profile_item ("printer") ("p1") ("POST") ("application/json")
        (some ("x2")) 300 (.error ("nc"))
        (.ok ⟨422, utf8 ("dup"), []⟩)).1 =
      [⟨"PATCH", "/api/profiles/printer/p1",
        some (utf8 (jsonDumpsNewName ("x2"))), some ("application/json"), 10⟩])
    ∧ ((handle_profile_item ("printer") ("p1") ("POST") ("application/json")
        (some ("x2")) 300 (.error ("nc"))
        (.ok ⟨422, utf8 ("dup"), []⟩)).2 =
      .err ⟨"Profile operation failed: " ++ decodeReplace (utf8 ("dup")),
            422⟩) := by
  have h := claim6_rename_always_patch ("printer") ("p1") ("application/json")
    ("x2") 300 (.error ("nc")) (.ok ⟨422, utf8 ("dup"), []⟩) (by decide)
  exact ⟨h.1, h.2.1 ⟨422, utf8 ("dup"), []⟩ rfl (by decide)⟩

/-- Counterexample to C7 as stated: the forwarded body and content type are
    not the inbound payload forwarded byte-for-byte — the handler sends a
    reconstructed multipart with its own fresh boundary. -/
theorem claim7_counterexample :
    ((handle_profiles_collection ("printer") ("POST") ("a.ini") ("x")
        ("bnd0") (utf8 ("raw inbound multipart payload"))
        ("multipart/form-data; boundary=webkitform") 300 (.error ("nc"))
        (.ok ⟨200, utf8 ("{}"), []⟩)).1.map (fun c => c.body) ≠
      [some (utf8 ("raw inbound multipart payload"))])
    ∧ ((handle_profiles_collection ("printer") ("POST") ("a.ini") ("x")
        ("bnd0") (utf8 ("raw inbound multipart payload"))
        ("multipart/form-data; boundary=webkitform") 300 (.error ("nc"))
        (.ok ⟨200, utf8 ("{}"), []⟩)).1.map (fun c => c.contentType) =
      [some ("multipart/form-data; boundary=bnd0")])
    ∧ (("multipart/form-data; boundary=bnd0" : String) ≠
        "multipart/form-data; boundary=webkitform") := by
  decide

/-- C7 (amended): POST to `/profiles/{category}` rebuilds a fresh
    multipart/form-data body from the parsed `filename`/`content` fields —
    with a newly generated boundary, not the inbound payload byte-for-byte
    — and forwards it as POST with timeout 30s; a backend status ≥ 400
    raises Profile Upload Failed with the backend's status and body text
    in the message. -/
theorem claim7_upload_reconstructed :
    ∀ (pt fn content bnd : String) (ib : List Nat) (ict : String) (rt : Nat)
      (bs : Except String HttpClientResponse)
      (braw : Except String RawResponse),
    pt ∈ VALID_PROFILE_TYPES →
    ((handle_profiles_collection pt ("POST") fn content bnd ib ict rt bs
        braw).1 =
      [⟨"POST", "/api/profiles/" ++ pt,
        some (build_multipart bnd [] (some ("file")) (some fn)
          (some (utf8 content))).1,
        some ("multipart/form-data; boundary=" ++ bnd), 30⟩])
    ∧ (∀ resp : RawResponse, braw = .ok resp → 400 ≤ resp.code →
      (handle_profiles_collection pt ("POST") fn content bnd ib ict rt bs
          braw).2 =
        .err ⟨"Profile upload failed: " ++ decodeReplace resp.body,
              resp.code⟩)
    ∧ (∀ resp : RawResponse, braw = .ok resp → resp.code < 400 →
      (handle_profiles_collection pt ("POST") fn content bnd ib ict rt bs
          braw).2 = .okLoads resp.body) := by
  intro pt fn content bnd ib ict rt bs braw hmem
  have hv := validate_valid hmem
  have hg : ("POST" : String) ≠ "GET" := by decide
  refine ⟨?_, ?_, ?_⟩
  · cases braw with
    | error e =>
      simp [handle_profiles_collection, hv, hg, send_multipart,
        build_multipart]
    | ok resp =>
      by_cases hc : 400 ≤ resp.code
      · simp [handle_profiles_collection, hv, hg, send_multipart, hc,
          build_multipart]
      · simp [handle_profiles_collection, hv, hg, send_multipart, hc,
          build_multipart]
  · intro resp heq hc
    subst heq
    simp [handle_profiles_collection, hv, hg, send_multipart, hc]
  · intro resp heq hc
    have hc2 : ¬ 400 ≤ resp.code := by omega
    subst heq
    simp [handle_profiles_collection, hv, hg, send_multipart, hc2]

/-- Witness for C7 (amended): a concrete upload forwarded as POST with the
    reconstructed multipart, and a 415 backend answer mapped to Profile
    Upload Failed. -/
theorem claim7_witness :
    ((handle_profiles_collection ("filament") ("POST") ("a.ini") ("x")
        ("bnd0") [] ("application/json") 300 (.error ("nc"))
        (.ok ⟨415, utf8 ("bad"), []⟩)).1 =
      [⟨"POST", "/api/profiles/filament",
        some (build_multipart ("bnd0") [] (some ("file")) (some ("a.ini"))
          (some (utf8 ("x")))).1,
        some ("multipart/form-data; boundary=bnd0"), 30⟩])
    ∧ ((handle_profiles_collection ("filament") ("POST") ("a.ini") ("x")
        ("bnd0") [] ("application/json") 300 (.error ("nc"))
        (.ok ⟨415, utf8 ("bad"), []⟩)).2 =
      .err ⟨"Profile upload failed: " ++ decodeReplace (utf8 ("bad")),
            415⟩) := by
  have h := claim7_upload_reconstructed ("filament") ("a.ini") ("x") ("bnd0")
    [] ("application/json") 300 (.error ("nc")) (.ok ⟨415, utf8 ("bad"), []⟩)
    (by decide)
  exact ⟨h.1, h.2.1 ⟨415, utf8 ("bad"), []⟩ rfl (by decide)⟩

end OrcaSlicer
